import Mathlib

/-!
# Unit-aware numeric operation dispatcher: a verification model

The repository's source tree contains only the documentation notebook
`docs/numpy.ipynb`; the implementation it documents (the Quantity type, the
numpy-function dispatch layer, the registry adapter) is not present.  All
definitions below are therefore modelled from the design specification and
the notebook, faithful to their words: the dimensional-signature data model,
unit conversion, the precedence arbiter, the operation specification table
and the dispatcher.
-/

namespace PintModel

/-- Modelled from the spec: a dimensional signature is a vector of exponents
over a fixed set of base dimensions (length, mass, time, angle). -/
structure Signature where
  length : Int
  mass : Int
  time : Int
  angle : Int
deriving DecidableEq, Repr

/-- The all-zero signature: the signature of a dimensionless unit. -/
def Signature.null : Signature := ⟨0, 0, 0, 0⟩

/-- Modelled from the spec: a unit is an opaque token produced by the external
registry; the registry gives it a dimensional signature and a (linear)
conversion factor to the base unit of its dimension. -/
structure MUnit where
  name : String
  sig : Signature
  factor : Rat
deriving DecidableEq, Repr

/-- Modelled from the spec: the error taxonomy of the dispatch layer.
`IncompatibleDimensions` always carries both units and their signatures;
the dispatcher variant `IncompatibleDimensionsAt` additionally carries the
0-based offending argument position. -/
inductive DispatchError where
  | IncompatibleDimensions (u1 u2 : MUnit) (s1 s2 : Signature)
  | IncompatibleDimensionsAt (argIndex : Nat) (u1 u2 : MUnit) (s1 s2 : Signature)
  | UnsupportedOp (opName : String)
  | UnsupportedPayload
deriving DecidableEq, Repr

/-- Modelled from the spec: a Quantity pairs a bare magnitude (here an
array payload of rationals) with a unit; the unit is always defined. -/
structure Quantity where
  magnitude : List Rat
  unit : MUnit
deriving DecidableEq, Repr

/-- Registry adapter's conversion function: rescale a magnitude from one unit
to another (the caller checks signature compatibility first). -/
def convertMagnitude (m : List Rat) (fromU toU : MUnit) : List Rat :=
  m.map (fun x => x * fromU.factor / toU.factor)

/-- Modelled from the spec: `convertTo(targetUnit)` returns a new Quantity with
the magnitude rescaled via the registry's conversion function, and fails with
`IncompatibleDimensions` (carrying both units and both signatures) when the two
units' dimensional signatures differ. -/
def Quantity.convertTo (q : Quantity) (target : MUnit) : Except DispatchError Quantity :=
  if q.unit.sig = target.sig then
    .ok ⟨convertMagnitude q.magnitude q.unit target, target⟩
  else
    .error (.IncompatibleDimensions q.unit target q.unit.sig target.sig)

/-- Modelled from the spec: `dimensionality()` is the signature of the unit. -/
def Quantity.dimensionality (q : Quantity) : Signature := q.unit.sig

/- Concrete registry units used by the witnesses. -/

def sigLength : Signature := ⟨1, 0, 0, 0⟩
def sigAngle : Signature := ⟨0, 0, 0, 1⟩
def sigEnergy : Signature := ⟨2, 1, -2, 0⟩

def meter : MUnit := ⟨"meter", sigLength, 1⟩
def centimeter : MUnit := ⟨"centimeter", sigLength, 1 / 100⟩
def kilometer : MUnit := ⟨"kilometer", sigLength, 1000⟩
def joule : MUnit := ⟨"joule", sigEnergy, 1⟩
def radian : MUnit := ⟨"radian", sigAngle, 1⟩
def degree : MUnit := ⟨"degree", sigAngle, 355 / 20340⟩
def one : MUnit := ⟨"dimensionless", Signature.null, 1⟩
def percent : MUnit := ⟨"percent", Signature.null, 1 / 100⟩

/-- Modelled from the spec: per-argument roles of an Operation Specification.
`unitFree` passes the bare magnitude through, `primary` defines the reference
unit, `matchedToPrimary` is converted to the primary's unit,
`forcedDimensionlessInput` requires an all-zero signature, `angleDimConv`
requires convertibility to the registry's angle (radian-equivalent) unit. -/
inductive ArgRole where
  | unitFree
  | primary
  | matchedToPrimary
  | forcedDimensionlessInput
  | angleDimConv
deriving DecidableEq, Repr

/-- Modelled from the spec: the output-unit rule of an Operation Specification. -/
inductive OutputRule where
  | sameAsPrimary
  | dimensionless
  | derivedByMultiplication
deriving DecidableEq, Repr

/-- Modelled from the spec: an Operation Specification holds the ordered
argument roles, the output-unit rule, and whether the operation is a variadic
"all arguments share a unit" operation. -/
structure OperationSpec where
  roles : List ArgRole
  output : OutputRule
  variadic : Bool
deriving DecidableEq, Repr

/-- Modelled from the spec: the read-only configuration of the layer — the
Operation Specification Table (exact-name lookup), the registered upcast
(outranking) type names, and the registry's angle and dimensionless units. -/
structure Config where
  table : List (String × OperationSpec)
  upcastTypes : List String
  radianUnit : MUnit
  dimensionlessUnit : MUnit

/-- Modelled from the spec: an operand of one dispatched operation — either a
Quantity of this layer or a foreign value identified by its type name. -/
inductive Operand where
  | quantity (q : Quantity)
  | foreign (typeName : String) (payload : List Rat)
deriving DecidableEq, Repr

/-- An operand outranks this layer iff it is a foreign value whose type name is
registered as an upcast type. -/
def Operand.isUpcast (cfg : Config) : Operand → Bool
  | .quantity _ => false
  | .foreign t _ => cfg.upcastTypes.contains t

def Operand.isQuantity : Operand → Bool
  | .quantity _ => true
  | .foreign _ _ => false

/-- The bare payload of an operand. -/
def Operand.payload : Operand → List Rat
  | .quantity q => q.magnitude
  | .foreign _ p => p

/-- Outcome of the Type Precedence Arbiter. -/
inductive ArbiterOutcome where
  | handle
  | deferOut
deriving DecidableEq, Repr

/-- Modelled from the spec: the Arbiter returns defer for the whole operation
when any operand's type outranks this layer; otherwise it handles when at
least one operand is a Quantity. -/
def arbitrate (cfg : Config) (operands : List Operand) : ArbiterOutcome :=
  if operands.any (Operand.isUpcast cfg) then .deferOut
  else if operands.any Operand.isQuantity then .handle
  else .deferOut

/-- Modelled from the spec: in handle mode an operand that is not a Quantity
(and not upcast) is treated as an implicit dimensionless Quantity. -/
def normalizeOperand (cfg : Config) : Operand → Quantity
  | .quantity q => q
  | .foreign _ p => ⟨p, cfg.dimensionlessUnit⟩

/-- Modelled from the spec: exact-name lookup in the Operation Specification
Table, with no fallback of any kind. -/
def lookupSpec (cfg : Config) (opName : String) : Option OperationSpec :=
  match cfg.table.find? (fun e => e.1 == opName) with
  | some e => some e.2
  | none => none

/-- The primary (reference) unit of a call: the unit of the argument whose
role is `primary`; the dimensionless unit when no role is `primary`. -/
def primaryUnit (cfg : Config) (roles : List ArgRole) (qs : List Quantity) : MUnit :=
  match (roles.zip qs).find? (fun rq => decide (rq.1 = ArgRole.primary)) with
  | some rq => rq.2.unit
  | none => cfg.dimensionlessUnit

/-- Modelled from the spec: per-role handling of one argument at 0-based
position `i`, producing the bare pre-converted magnitude for the backend, or
an `IncompatibleDimensionsAt` failure naming the position and both
units/signatures. -/
def processArg (cfg : Config) (prim : MUnit) (i : Nat) (role : ArgRole)
    (q : Quantity) : Except DispatchError (List Rat) :=
  match role with
  | .unitFree => .ok q.magnitude
  | .primary => .ok q.magnitude
  | .matchedToPrimary =>
      if q.unit.sig = prim.sig then
        .ok (convertMagnitude q.magnitude q.unit prim)
      else
        .error (.IncompatibleDimensionsAt i q.unit prim q.unit.sig prim.sig)
  | .forcedDimensionlessInput =>
      if q.unit.sig = Signature.null then
        .ok (convertMagnitude q.magnitude q.unit cfg.dimensionlessUnit)
      else
        .error (.IncompatibleDimensionsAt i q.unit cfg.dimensionlessUnit
          q.unit.sig Signature.null)
  | .angleDimConv =>
      if q.unit.sig = cfg.radianUnit.sig then
        .ok (convertMagnitude q.magnitude q.unit cfg.radianUnit)
      else
        .error (.IncompatibleDimensionsAt i q.unit cfg.radianUnit
          q.unit.sig cfg.radianUnit.sig)

/-- Process the arguments role by role, failing on the first offending one. -/
def processArgs (cfg : Config) (prim : MUnit) :
    Nat → List ArgRole → List Quantity → Except DispatchError (List (List Rat))
  | _, [], _ => .ok []
  | _, _ :: _, [] => .ok []
  | i, r :: rs, q :: qs =>
      match processArg cfg prim i r q with
      | .error e => .error e
      | .ok m =>
          match processArgs cfg prim (i + 1) rs qs with
          | .error e => .error e
          | .ok ms => .ok (m :: ms)

/-- Modelled from the spec: for a variadic all-arguments-share-a-unit
operation, convert every element to the primary (first element's) unit,
failing on the first incompatible element with its 0-based index. -/
def convertAll (prim : MUnit) : Nat → List Quantity → Except DispatchError (List (List Rat))
  | _, [] => .ok []
  | i, q :: qs =>
      if q.unit.sig = prim.sig then
        match convertAll prim (i + 1) qs with
        | .error e => .error e
        | .ok ms => .ok (convertMagnitude q.magnitude q.unit prim :: ms)
      else
        .error (.IncompatibleDimensionsAt i q.unit prim q.unit.sig prim.sig)

def Signature.add (s t : Signature) : Signature :=
  ⟨s.length + t.length, s.mass + t.mass, s.time + t.time, s.angle + t.angle⟩

/-- Modelled from the spec: derive the output unit from the output rule —
same as primary, the dimensionless unit, or the product of the input units. -/
def outputUnit (cfg : Config) (rule : OutputRule) (prim : MUnit)
    (qs : List Quantity) : MUnit :=
  match rule with
  | .sameAsPrimary => prim
  | .dimensionless => cfg.dimensionlessUnit
  | .derivedByMultiplication =>
      ⟨String.intercalate "*" (qs.map (fun q => q.unit.name)),
       qs.foldl (fun s q => s.add q.unit.sig) Signature.null,
       qs.foldl (fun f q => f * q.unit.factor) 1⟩

/-- Result of a dispatch: a wrapped Quantity, or the defer control signal. -/
inductive DispatchResult where
  | wrapped (q : Quantity)
  | deferSignal
deriving DecidableEq, Repr

/-- Modelled from the spec: dispatch of one operation once the Arbiter chose
handle and the Specification was resolved — normalize operands, convert per
role (or per the variadic rule), call the bare backend on the pre-converted
magnitudes, and wrap the result per the output rule. -/
def dispatchHandled (cfg : Config) (backend : String → List (List Rat) → List Rat)
    (opName : String) (operands : List Operand) (sp : OperationSpec) :
    Except DispatchError DispatchResult :=
  let qs := operands.map (normalizeOperand cfg)
  if sp.variadic then
    match qs with
    | [] => .error .UnsupportedPayload
    | q0 :: _ =>
        match convertAll q0.unit 0 qs with
        | .error e => .error e
        | .ok ms => .ok (.wrapped ⟨backend opName ms, outputUnit cfg sp.output q0.unit qs⟩)
  else
    match processArgs cfg (primaryUnit cfg sp.roles qs) 0 sp.roles qs with
    | .error e => .error e
    | .ok ms =>
        .ok (.wrapped ⟨backend opName ms,
          outputUnit cfg sp.output (primaryUnit cfg sp.roles qs) qs⟩)

/-- Modelled from the spec: the Dispatcher end to end — ask the Arbiter (defer
immediately on an outranking operand), resolve the Specification by exact name
(failing with `UnsupportedOp` when absent, never falling through to the bare
backend), then perform the handled dispatch. -/
def dispatch (cfg : Config) (backend : String → List (List Rat) → List Rat)
    (opName : String) (operands : List Operand) :
    Except DispatchError DispatchResult :=
  match arbitrate cfg operands with
  | .deferOut => .ok .deferSignal
  | .handle =>
      match lookupSpec cfg opName with
      | none => .error (.UnsupportedOp opName)
      | some sp => dispatchHandled cfg backend opName operands sp

/- Concrete configuration used by the witnesses. -/

def demoTable : List (String × OperationSpec) :=
  [("hypot", ⟨[.primary, .matchedToPrimary], .sameAsPrimary, false⟩),
   ("arctan2", ⟨[.primary, .matchedToPrimary], .dimensionless, false⟩),
   ("exp", ⟨[.forcedDimensionlessInput], .dimensionless, false⟩),
   ("log", ⟨[.forcedDimensionlessInput], .dimensionless, false⟩),
   ("arccos", ⟨[.angleDimConv], .dimensionless, false⟩),
   ("multiply", ⟨[.primary, .unitFree], .derivedByMultiplication, false⟩),
   ("concatenate", ⟨[], .sameAsPrimary, true⟩),
   ("stack", ⟨[], .sameAsPrimary, true⟩)]

def demoConfig : Config :=
  ⟨demoTable, ["xarray.DataArray", "xarray.Dataset", "xarray.Variable"], radian, one⟩

/-- Integer square root by bounded search (used only by the demo backend). -/
def isqrt (n : Nat) : Nat :=
  match (List.range (n + 1)).find? (fun k => decide (n < (k + 1) * (k + 1))) with
  | some k => k
  | none => n

/-- Square root on rationals, exact on perfect squares (used only as a
concrete bare backend for the hypot witness). -/
def ratSqrt (x : Rat) : Rat := (isqrt x.num.toNat : Rat) / (isqrt x.den : Rat)

/-- A concrete bare-magnitude backend for the witnesses: elementwise hypot,
identity elsewhere. -/
def demoBackend : String → List (List Rat) → List Rat
  | "hypot", [xs, ys] => List.zipWith (fun a b => ratSqrt (a * a + b * b)) xs ys
  | _, (xs :: _) => xs
  | _, [] => []

/-- A Quantity whose payload is a masked array: each entry is either an
unmasked rational or masked (`none`). -/
structure MaskedQuantity where
  magnitude : List (Option Rat)
  unit : MUnit
deriving DecidableEq, Repr

/-- A scalar Quantity: one rational paired with a unit. -/
structure ScalarQuantity where
  value : Rat
  unit : MUnit
deriving DecidableEq, Repr

/-- The two shapes a unit-bearing value built from a masked array can take:
one Quantity wrapping the whole masked array, or a masked object array whose
unmasked elements are scalar Quantities. -/
inductive MaskedCreation where
  | single (q : MaskedQuantity)
  | elementwise (xs : List (Option ScalarQuantity))
deriving DecidableEq, Repr

/-- Modelled from the spec: the notebook's masked-array example — creating by
multiplication `maskedArray * unit` does not wrap the masked array (numpy
issue 15200); the multiplication is broadcast elementwise, producing a masked
object array whose unmasked elements are scalar Quantities and whose masked
entries stay masked. -/
def maskedTimesUnit (m : List (Option Rat)) (u : MUnit) : MaskedCreation :=
  .elementwise (m.map (fun o => o.map (fun x => ⟨x, u⟩)))

/-- Modelled from the spec: the notebook's masked-array example — construction
through the Quantity class wraps the whole masked array in a single Quantity,
masked entries preserved. -/
def quantityOfMasked (m : List (Option Rat)) (u : MUnit) : MaskedCreation :=
  .single ⟨m, u⟩

/-- Result of accessing an attribute of a Quantity: a value, or an
AttributeError. -/
inductive AttrAccess where
  | value (s : String)
  | attrError
deriving DecidableEq, Repr

/-- Modelled from the spec: the notebook states that accessing the NumPy
array interface protocol attributes (`__array_struct__`,
`__array_interface__`) on a Quantity raises AttributeError, since a Quantity
behaves as a duck array and never exposes itself as a pure ndarray; other
undefined attributes also raise, while defined ones (such as `units`) return
their value. -/
def Quantity.getAttr (q : Quantity) (attr : String) : AttrAccess :=
  if attr = "__array_struct__" ∨ attr = "__array_interface__" then .attrError
  else if attr = "units" then .value q.unit.name
  else .attrError

end PintModel

namespace PintModel

/-- C3: converting a Quantity to a compatible unit and back reproduces the
original magnitude exactly (the model computes over exact rationals, so the
round trip is exact, in particular within any backend tolerance), provided the
two conversion factors are nonzero as every registry factor is. -/
theorem convert_roundTrip (q : Quantity) (u : MUnit)
    (hc : q.unit.sig = u.sig)
    (hq : q.unit.factor ≠ 0) (hu : u.factor ≠ 0) :
    ∃ q1, q.convertTo u = .ok q1 ∧
      q1.convertTo q.unit = .ok ⟨q.magnitude, q.unit⟩ := by
  refine ⟨⟨convertMagnitude q.magnitude q.unit u, u⟩, ?_, ?_⟩
  · simp [Quantity.convertTo, hc]
  · simp only [Quantity.convertTo, hc.symm, if_pos rfl]
    have : convertMagnitude (convertMagnitude q.magnitude q.unit u) u q.unit
        = q.magnitude := by
      simp only [convertMagnitude, List.map_map]
      have h : ((fun x => x * u.factor / q.unit.factor) ∘
          fun x => x * q.unit.factor / u.factor) = id := by
        funext x
        field_simp
      rw [h, List.map_id]
    rw [this]
    simp

/-- Witness for C3: a concrete round trip, `[3, 4] meter` through kilometers. -/
theorem convert_roundTrip_witness :
    ∃ q1, (Quantity.convertTo ⟨[3, 4], meter⟩ kilometer) = .ok q1 ∧
      q1.convertTo meter = .ok ⟨[3, 4], meter⟩ :=
  convert_roundTrip ⟨[3, 4], meter⟩ kilometer (by decide) (by decide) (by decide)

/-- C7: `convertTo` fails with `IncompatibleDimensions` carrying both units and
both dimensional signatures exactly when the signatures differ, and on success
returns a new Quantity with the rescaled magnitude (the original Quantity is a
value and is never mutated). -/
theorem convertTo_spec (q : Quantity) (t : MUnit) :
    (q.unit.sig ≠ t.sig →
      q.convertTo t = .error (.IncompatibleDimensions q.unit t q.unit.sig t.sig))
    ∧ (q.unit.sig = t.sig →
      q.convertTo t = .ok ⟨convertMagnitude q.magnitude q.unit t, t⟩) := by
  constructor
  · intro h
    simp [Quantity.convertTo, h]
  · intro h
    simp [Quantity.convertTo, h]

/-- Witness for C7: meters cannot convert to joules (the error carries both
units and signatures); meters convert to kilometers with rescaled magnitude. -/
theorem convertTo_spec_witness :
    (Quantity.convertTo ⟨[3, 4], meter⟩ joule
      = .error (.IncompatibleDimensions meter joule sigLength sigEnergy))
    ∧ (Quantity.convertTo ⟨[3, 4], meter⟩ kilometer
      = .ok ⟨convertMagnitude [3, 4] meter kilometer, kilometer⟩) :=
  ⟨(convertTo_spec ⟨[3, 4], meter⟩ joule).1 (by decide),
   (convertTo_spec ⟨[3, 4], meter⟩ kilometer).2 (by decide)⟩

end PintModel

namespace PintModel

/-- C1: for a two-argument operation whose second argument role is
matched-to-primary, the second operand is converted to the first (primary)
operand's unit before the backend computation: the backend receives the
primary magnitude unchanged and the second magnitude rescaled to the primary
unit, and the result is wrapped in the primary unit. -/
theorem matchedToPrimary_converts (cfg : Config)
    (backend : String → List (List Rat) → List Rat) (opName : String)
    (q1 q2 : Quantity)
    (hspec : lookupSpec cfg opName
      = some ⟨[.primary, .matchedToPrimary], .sameAsPrimary, false⟩)
    (hc : q2.unit.sig = q1.unit.sig) :
    dispatch cfg backend opName [.quantity q1, .quantity q2]
      = .ok (.wrapped ⟨backend opName
          [q1.magnitude, convertMagnitude q2.magnitude q2.unit q1.unit],
          q1.unit⟩) := by
  simp [dispatch, arbitrate, Operand.isUpcast, Operand.isQuantity, hspec,
    dispatchHandled, normalizeOperand, primaryUnit, processArgs, processArg,
    outputUnit, hc]

/-- Witness for C1: `hypot` of `[3, 4] meter` with `[400, 300] centimeter`
converts the second operand to `[4, 3] meter` first and yields
`[5, 5] meter`. -/
theorem matchedToPrimary_converts_witness :
    dispatch demoConfig demoBackend "hypot"
        [.quantity ⟨[3, 4], meter⟩, .quantity ⟨[400, 300], centimeter⟩]
      = .ok (.wrapped ⟨demoBackend "hypot"
          [[3, 4], convertMagnitude [400, 300] centimeter meter], meter⟩)
    ∧ convertMagnitude [400, 300] centimeter meter = [4, 3]
    ∧ dispatch demoConfig demoBackend "hypot"
        [.quantity ⟨[3, 4], meter⟩, .quantity ⟨[400, 300], centimeter⟩]
      = .ok (.wrapped ⟨[5, 5], meter⟩) := by
  have h := matchedToPrimary_converts demoConfig demoBackend "hypot"
    ⟨[3, 4], meter⟩ ⟨[400, 300], centimeter⟩ (by decide) (by decide)
  have hconv : convertMagnitude [400, 300] centimeter meter = [4, 3] := by
    norm_num [convertMagnitude, centimeter, meter]
  have hrs : ratSqrt 25 = 5 := by
    have h1 : (25 : Rat).num.toNat = 25 := rfl
    have h2 : (25 : Rat).den = 1 := rfl
    unfold ratSqrt
    rw [h1, h2]
    have h3 : isqrt 25 = 5 := by decide
    have h4 : isqrt 1 = 1 := by decide
    rw [h3, h4]
    norm_num
  have hb : demoBackend "hypot" [[3, 4], [4, 3]] = [5, 5] := by
    show [ratSqrt (3 * 3 + 4 * 4), ratSqrt (4 * 4 + 3 * 3)] = [5, 5]
    have e1 : (3 * 3 + 4 * 4 : Rat) = 25 := by norm_num
    have e2 : (4 * 4 + 3 * 3 : Rat) = 25 := by norm_num
    rw [e1, e2, hrs]
  refine ⟨h, hconv, ?_⟩
  rw [h, hconv, hb]

/-- C2: an operation name absent from the Specification Table fails with
`UnsupportedOp`, for every backend whatsoever — the dispatcher never falls
through to stripping units and running the bare backend operation. -/
theorem unsupported_op_fails (cfg : Config)
    (backend : String → List (List Rat) → List Rat) (opName : String)
    (operands : List Operand)
    (hq : operands.any Operand.isQuantity = true)
    (hu : operands.any (Operand.isUpcast cfg) = false)
    (hspec : lookupSpec cfg opName = none) :
    dispatch cfg backend opName operands = .error (.UnsupportedOp opName) := by
  simp [dispatch, arbitrate, hq, hu, hspec]

/-- Witness for C2: dispatching the unregistered name "einsum" on a Quantity
operand fails with `UnsupportedOp "einsum"`. -/
theorem unsupported_op_fails_witness :
    dispatch demoConfig demoBackend "einsum" [.quantity ⟨[1], meter⟩]
      = .error (.UnsupportedOp "einsum") :=
  unsupported_op_fails demoConfig demoBackend "einsum"
    [.quantity ⟨[1], meter⟩] (by decide) (by decide) (by decide)

/-- C4: when any operand's type is a registered upcast (outranking) type,
dispatch returns the defer signal for the whole operation — for every backend,
so no conversion or backend computation takes place — even when other operands
are ordinary Quantities; when no operand is upcast and at least one operand is
a Quantity, the Arbiter chooses handle, and every operand that is not a
Quantity is normalized to an implicit dimensionless Quantity over its
payload. -/
theorem arbiter_defer_and_handle (cfg : Config)
    (backend : String → List (List Rat) → List Rat) (opName : String)
    (operands : List Operand) :
    (operands.any (Operand.isUpcast cfg) = true →
      dispatch cfg backend opName operands = .ok .deferSignal)
    ∧ (operands.any (Operand.isUpcast cfg) = false →
       operands.any Operand.isQuantity = true →
       arbitrate cfg operands = .handle
       ∧ ∀ o ∈ operands, Operand.isQuantity o = false →
           normalizeOperand cfg o = ⟨o.payload, cfg.dimensionlessUnit⟩) := by
  refine ⟨fun hu => ?_, fun hu hq => ⟨?_, ?_⟩⟩
  · simp [dispatch, arbitrate, hu]
  · simp [arbitrate, hu, hq]
  · intro o _ ho
    cases o with
    | quantity q => simp [Operand.isQuantity] at ho
    | foreign t p => simp [normalizeOperand, Operand.payload]

/-- Witness for C4: an xarray operand (registered upcast type) makes dispatch
defer even alongside an ordinary Quantity; without it, a Quantity plus a bare
ndarray-like operand is handled, the bare operand wrapped as dimensionless. -/
theorem arbiter_defer_and_handle_witness :
    dispatch demoConfig demoBackend "hypot"
        [.quantity ⟨[3, 4], meter⟩, .foreign "xarray.DataArray" [1, 2]]
      = .ok .deferSignal
    ∧ (arbitrate demoConfig
         [.quantity ⟨[3, 4], meter⟩, .foreign "numpy.ndarray" [1, 2]] = .handle
       ∧ ∀ o ∈ [Operand.quantity ⟨[3, 4], meter⟩,
            Operand.foreign "numpy.ndarray" [1, 2]],
           Operand.isQuantity o = false →
           normalizeOperand demoConfig o = ⟨o.payload, demoConfig.dimensionlessUnit⟩) :=
  ⟨(arbiter_defer_and_handle demoConfig demoBackend "hypot"
      [.quantity ⟨[3, 4], meter⟩, .foreign "xarray.DataArray" [1, 2]]).1 (by decide),
   (arbiter_defer_and_handle demoConfig demoBackend "hypot"
      [.quantity ⟨[3, 4], meter⟩, .foreign "numpy.ndarray" [1, 2]]).2
     (by decide) (by decide)⟩

end PintModel

namespace PintModel

/-- C5: for an operation whose argument role is forced-dimensionless-input,
dispatch on a Quantity whose unit has a nonzero dimensional signature fails
with IncompatibleDimensions (at position 0, carrying both units and
signatures); on a Quantity with an all-zero signature it succeeds, whatever
the unit's numeric conversion factor — the gate is the signature check
itself, not numeric convertibility. -/
theorem forcedDimensionless_gate (cfg : Config)
    (backend : String → List (List Rat) → List Rat) (opName : String)
    (q : Quantity)
    (hspec : lookupSpec cfg opName
      = some ⟨[.forcedDimensionlessInput], .dimensionless, false⟩) :
    (q.unit.sig ≠ Signature.null →
      dispatch cfg backend opName [.quantity q]
        = .error (.IncompatibleDimensionsAt 0 q.unit cfg.dimensionlessUnit
            q.unit.sig Signature.null))
    ∧ (q.unit.sig = Signature.null →
      dispatch cfg backend opName [.quantity q]
        = .ok (.wrapped ⟨backend opName
            [convertMagnitude q.magnitude q.unit cfg.dimensionlessUnit],
            cfg.dimensionlessUnit⟩)) := by
  constructor
  · intro h
    simp [dispatch, arbitrate, Operand.isUpcast, Operand.isQuantity, hspec,
      dispatchHandled, normalizeOperand, primaryUnit, processArgs, processArg,
      outputUnit, h]
  · intro h
    simp [dispatch, arbitrate, Operand.isUpcast, Operand.isQuantity, hspec,
      dispatchHandled, normalizeOperand, primaryUnit, processArgs, processArg,
      outputUnit, h]

/-- Witness for C5: `exp` on a meter Quantity is rejected with
`IncompatibleDimensions`; `exp` on a percent Quantity (all-zero signature but
conversion factor 1/100, so the gate really is the signature and not the
factor) succeeds. -/
theorem forcedDimensionless_gate_witness :
    dispatch demoConfig demoBackend "exp" [.quantity ⟨[2], meter⟩]
      = .error (.IncompatibleDimensionsAt 0 meter one sigLength Signature.null)
    ∧ dispatch demoConfig demoBackend "exp" [.quantity ⟨[50], percent⟩]
      = .ok (.wrapped ⟨demoBackend "exp"
          [convertMagnitude [50] percent one], one⟩) :=
  ⟨(forcedDimensionless_gate demoConfig demoBackend "exp" ⟨[2], meter⟩
      (by decide)).1 (by decide),
   (forcedDimensionless_gate demoConfig demoBackend "exp" ⟨[50], percent⟩
      (by decide)).2 (by decide)⟩

/-- C6: for an operation governed by the angle-dimensionless-conversion rule,
the input must be convertible to the registry's radian-equivalent angle unit
— dispatch fails with IncompatibleDimensions when the input's signature
differs from the angle unit's — and on success the input is converted to the
angle unit and the output is wrapped in the registry's dimensionless unit, so
it carries no angle unit. -/
theorem angleConversion_gate (cfg : Config)
    (backend : String → List (List Rat) → List Rat) (opName : String)
    (q : Quantity)
    (hspec : lookupSpec cfg opName
      = some ⟨[.angleDimConv], .dimensionless, false⟩) :
    (q.unit.sig ≠ cfg.radianUnit.sig →
      dispatch cfg backend opName [.quantity q]
        = .error (.IncompatibleDimensionsAt 0 q.unit cfg.radianUnit
            q.unit.sig cfg.radianUnit.sig))
    ∧ (q.unit.sig = cfg.radianUnit.sig →
      dispatch cfg backend opName [.quantity q]
        = .ok (.wrapped ⟨backend opName
            [convertMagnitude q.magnitude q.unit cfg.radianUnit],
            cfg.dimensionlessUnit⟩)) := by
  constructor
  · intro h
    simp [dispatch, arbitrate, Operand.isUpcast, Operand.isQuantity, hspec,
      dispatchHandled, normalizeOperand, primaryUnit, processArgs, processArg,
      outputUnit, h]
  · intro h
    simp [dispatch, arbitrate, Operand.isUpcast, Operand.isQuantity, hspec,
      dispatchHandled, normalizeOperand, primaryUnit, processArgs, processArg,
      outputUnit, h]

/-- Witness for C6: `arccos` on a degree Quantity (convertible to radians)
succeeds with the input converted to radians and the output in the
dimensionless unit, whose signature is all-zero; `arccos` on a centimeter
Quantity fails with `IncompatibleDimensions`. -/
theorem angleConversion_gate_witness :
    dispatch demoConfig demoBackend "arccos" [.quantity ⟨[60], degree⟩]
      = .ok (.wrapped ⟨demoBackend "arccos"
          [convertMagnitude [60] degree radian], one⟩)
    ∧ dispatch demoConfig demoBackend "arccos" [.quantity ⟨[2], centimeter⟩]
      = .error (.IncompatibleDimensionsAt 0 centimeter radian sigLength sigAngle)
    ∧ one.sig = Signature.null :=
  ⟨(angleConversion_gate demoConfig demoBackend "arccos" ⟨[60], degree⟩
      (by decide)).2 (by decide),
   (angleConversion_gate demoConfig demoBackend "arccos" ⟨[2], centimeter⟩
      (by decide)).1 (by decide),
   by decide⟩

end PintModel

namespace PintModel

/-- When every element's signature matches the primary's, `convertAll`
succeeds and converts each element to the primary unit. -/
theorem convertAll_ok (prim : MUnit) (qs : List Quantity)
    (h : ∀ q ∈ qs, q.unit.sig = prim.sig) : ∀ k,
    convertAll prim k qs
      = .ok (qs.map (fun q => convertMagnitude q.magnitude q.unit prim)) := by
  induction qs with
  | nil => intro k; rfl
  | cons q rest ih =>
      intro k
      have hq : q.unit.sig = prim.sig := h q (List.mem_cons_self q rest)
      have hrest : ∀ q' ∈ rest, q'.unit.sig = prim.sig :=
        fun q' hm => h q' (List.mem_cons_of_mem q hm)
      simp [convertAll, hq, ih hrest (k + 1)]

/-- When the element at position `i` is the first whose signature differs from
the primary's, `convertAll` started at offset `k` fails with
`IncompatibleDimensionsAt (k + i)` carrying that element's unit. -/
theorem convertAll_error (prim : MUnit) (qs : List Quantity) :
    ∀ (k i : Nat) (q : Quantity), qs[i]? = some q →
    (∀ (j : Nat) (q' : Quantity), j < i → qs[j]? = some q' →
      q'.unit.sig = prim.sig) →
    q.unit.sig ≠ prim.sig →
    convertAll prim k qs
      = .error (.IncompatibleDimensionsAt (k + i) q.unit prim
          q.unit.sig prim.sig) := by
  induction qs with
  | nil => intro k i q hget; simp at hget
  | cons a rest ih =>
      intro k i q hget hok hbad
      cases i with
      | zero =>
          simp at hget
          subst hget
          simp [convertAll, hbad]
      | succ i' =>
          have ha : a.unit.sig = prim.sig := by
            exact hok 0 a (Nat.succ_pos i') (by simp)
          have hget' : rest[i']? = some q := by simpa using hget
          have hok' : ∀ (j : Nat) (q' : Quantity), j < i' → rest[j]? = some q' →
              q'.unit.sig = prim.sig := by
            intro j q' hj hg
            exact hok (j + 1) q' (Nat.succ_lt_succ hj) (by simpa using hg)
          have harith : k + 1 + i' = k + (i' + 1) := by omega
          simp [convertAll, ha, ih (k + 1) i' q hget' hok' hbad, harith]

/-- C8: for a variadic all-arguments-share-a-unit operation on a sequence of
Quantities, the first element's unit is the primary unit: when every element
is compatible, each is converted to it and the result is wrapped in it; when
element `i` is the first incompatible one, dispatch fails with
`IncompatibleDimensionsAt i` naming that element's 0-based index and its
unit. -/
theorem variadic_first_unit_primary (cfg : Config)
    (backend : String → List (List Rat) → List Rat) (opName : String)
    (q0 : Quantity) (rest : List Quantity)
    (hspec : lookupSpec cfg opName = some ⟨[], .sameAsPrimary, true⟩) :
    ((∀ q ∈ q0 :: rest, q.unit.sig = q0.unit.sig) →
      dispatch cfg backend opName ((q0 :: rest).map Operand.quantity)
        = .ok (.wrapped ⟨backend opName
            ((q0 :: rest).map (fun q => convertMagnitude q.magnitude q.unit q0.unit)),
            q0.unit⟩))
    ∧ (∀ (i : Nat) (q : Quantity), (q0 :: rest)[i]? = some q →
        (∀ (j : Nat) (q' : Quantity), j < i → (q0 :: rest)[j]? = some q' →
          q'.unit.sig = q0.unit.sig) →
        q.unit.sig ≠ q0.unit.sig →
        dispatch cfg backend opName ((q0 :: rest).map Operand.quantity)
          = .error (.IncompatibleDimensionsAt i q.unit q0.unit
              q.unit.sig q0.unit.sig)) := by
  constructor
  · intro hall
    have hca := convertAll_ok q0.unit (q0 :: rest) hall 0
    simp only [dispatch, arbitrate, dispatchHandled]
    simp [Operand.isUpcast, Operand.isQuantity, hspec, Function.comp_def,
      normalizeOperand, hca, outputUnit]
  · intro i q hget hok hbad
    have herr := convertAll_error q0.unit (q0 :: rest) 0 i q hget hok hbad
    rw [Nat.zero_add] at herr
    simp only [dispatch, arbitrate, dispatchHandled]
    simp [Operand.isUpcast, Operand.isQuantity, hspec, Function.comp_def,
      normalizeOperand, herr]

/-- Witness for C8: stacking three Quantities — meters, centimeters and an
incompatible third in degrees — fails with `IncompatibleDimensionsAt 2`,
naming index 2 (0-based); stacking the two compatible ones succeeds in the
first element's unit. -/
theorem variadic_first_unit_primary_witness :
    dispatch demoConfig demoBackend "stack"
        ([⟨[1], meter⟩, ⟨[100], centimeter⟩, ⟨[60], degree⟩].map Operand.quantity)
      = .error (.IncompatibleDimensionsAt 2 degree meter sigAngle sigLength)
    ∧ dispatch demoConfig demoBackend "stack"
        ([⟨[1], meter⟩, ⟨[100], centimeter⟩].map Operand.quantity)
      = .ok (.wrapped ⟨demoBackend "stack"
          ([(⟨[1], meter⟩ : Quantity), ⟨[100], centimeter⟩].map
            (fun q => convertMagnitude q.magnitude q.unit meter)), meter⟩) := by
  constructor
  · refine (variadic_first_unit_primary demoConfig demoBackend "stack"
      ⟨[1], meter⟩ [⟨[100], centimeter⟩, ⟨[60], degree⟩] (by decide)).2
      2 ⟨[60], degree⟩ (by simp) ?_ (by decide)
    intro j q' hj hg
    have : j = 0 ∨ j = 1 := by omega
    rcases this with h0 | h1
    · subst h0; simp at hg; subst hg; decide
    · subst h1; simp at hg; subst hg; decide
  · exact (variadic_first_unit_primary demoConfig demoBackend "stack"
      ⟨[1], meter⟩ [⟨[100], centimeter⟩] (by decide)).1 (by decide)

end PintModel

namespace PintModel

/-- C9: creating a unit-bearing value from a masked array by multiplication
never yields a single Quantity wrapping the masked array — it yields a masked
object array whose unmasked elements are scalar Quantities, masked entries
staying masked — while construction through the Quantity class yields one
Quantity wrapping the masked array with its masked entries preserved. -/
theorem masked_mul_vs_quantity_ctor (m : List (Option Rat)) (u : MUnit) :
    (∀ q : MaskedQuantity, maskedTimesUnit m u ≠ .single q)
    ∧ maskedTimesUnit m u
        = .elementwise (m.map (fun o => o.map (fun x => ⟨x, u⟩)))
    ∧ quantityOfMasked m u = .single ⟨m, u⟩ := by
  refine ⟨fun q h => ?_, rfl, rfl⟩
  simp [maskedTimesUnit] at h

/-- C10: accessing the array interface protocol attributes
`__array_struct__` or `__array_interface__` on any Quantity raises
AttributeError: a Quantity never exposes itself as a pure ndarray through
these attributes. -/
theorem array_interface_attrs_raise (q : Quantity) :
    q.getAttr "__array_struct__" = .attrError
    ∧ q.getAttr "__array_interface__" = .attrError := by
  constructor <;> rfl

end PintModel
